import Mathlib

/-!
Verification development for the coplanar-waveguide transmission-line
calculator `CPW.py` (class `TL`).

Embedding conventions:

* Python floats are modelled by real numbers `ℝ`; `numpy` elementwise
  array arithmetic is modelled by `List.map` / `List.zipWith` over `List ℝ`.
* `scipy.special.ellipk m` / `ellipe m` are the complete elliptic integrals
  in scipy's parameter convention, defined here by their integral formulas.
* The mutable `TL` object is a structure; the private method
  `_defined_short_parameter` (which patches the derived attributes
  `_a`, `_b`, `_t_H` in place) becomes the function `defined_short_parameter`,
  and every public method returns the pair (state after the call, value).
* A frequency argument (`float | list | numpy.ndarray`) is the inductive
  `PyArg`; `_variable_check` becomes `variable_check`.
* The regime dispatch in `L_l` / `_Rc` / `_Rg` truth-tests the `.mask` of
  `np.ma.masked_less_equal(f, bound)`.  `numpy` shrinks an all-False mask to
  the scalar `nomask` (falsy); a mask containing a masked entry is a boolean
  array, whose truth value is that entry for a one-element array and raises
  `ValueError` for longer arrays.  `maskTruth` models this truth test, with
  `Except Unit` modelling the possible `ValueError`; the exception then
  propagates out of the dispatching method.
* The float exponent `** 2.` agrees with squaring on every float input, so it
  is rendered as `^ (2 : ℕ)`; the genuinely real exponents (`nu_1`, `nu_2`,
  `nu_c`, `nu_g`) use `Real.rpow`.
* The source is Python-2 era, so `cst.mu_0` is scipy's then-exact value
  `4 π 1e-7`, `cst.c` is the exact speed of light, and `cst.epsilon_0` is
  scipy's derived `1 / (mu_0 c^2)`.
-/

namespace CPW

noncomputable section

open Real

/-- `scipy.constants.mu_0` (vacuum permeability, `4 π 1e-7`). -/
def mu_0 : ℝ := 4 * Real.pi * 1e-7

/-- `scipy.constants.c` (speed of light). -/
def c_light : ℝ := 299792458

/-- `scipy.constants.epsilon_0` (vacuum permittivity, `1 / (mu_0 c^2)`). -/
def epsilon_0 : ℝ := 1 / (mu_0 * c_light ^ 2)

/-- `scipy.special.ellipk m`: complete elliptic integral of the first kind,
in scipy's parameter (not modulus) convention. -/
def ellipk (m : ℝ) : ℝ :=
  ∫ θ in (0:ℝ)..(Real.pi / 2), 1 / Real.sqrt (1 - m * Real.sin θ ^ 2)

/-- `scipy.special.ellipe m`: complete elliptic integral of the second kind,
in scipy's parameter convention. -/
def ellipe (m : ℝ) : ℝ :=
  ∫ θ in (0:ℝ)..(Real.pi / 2), Real.sqrt (1 - m * Real.sin θ ^ 2)

/-- The state of a `TL` object: base attributes plus the lazily recomputed
derived attributes `_a`, `_b`, `_t_H`. -/
structure TL where
  epsilon_r : ℝ
  tan_delta : ℝ
  kappa : ℝ
  w : ℝ
  s : ℝ
  t : ℝ
  w_g : ℝ
  a : ℝ
  b : ℝ
  t_H : ℝ
  lambda_0 : ℝ

/-- `TL.__init__`: stores the base attributes and computes the derived ones. -/
def TL.init (epsilon_r tan_delta kappa w s t w_g : ℝ) : TL :=
  { epsilon_r := epsilon_r
    tan_delta := tan_delta
    kappa := kappa
    w := w
    s := s
    t := t
    w_g := w_g
    a := w / 2
    b := w / 2 + s
    t_H := t / 2
    lambda_0 := 40e-9 }

/-- `TL._defined_short_parameter`: recomputes the derived attributes from the
current base geometry. -/
def defined_short_parameter (st : TL) : TL :=
  { st with a := st.w / 2, b := st.w / 2 + st.s, t_H := st.t / 2 }

/-- A Python frequency argument: an `np.ndarray`, a `list`, or any other
single object (the source wraps the latter, whatever it is). -/
inductive PyArg (α : Type) where
  | ndarray : List α → PyArg α
  | pylist : List α → PyArg α
  | single : α → PyArg α

/-- `TL._variable_check`: an ndarray passes through, a list is converted, and
anything else is wrapped into a one-element array. -/
def variable_check {α : Type} : PyArg α → List α
  | .ndarray xs => xs
  | .pylist xs => xs
  | .single x => [x]

/-- A Python object handed to `_variable_check` in place of a frequency:
either a number or some unsupported non-numeric object. -/
inductive PyObj where
  | num : ℝ → PyObj
  | obj : PyObj

/-- The truth test `if mask:` applied to the `.mask` of
`np.ma.masked_less_equal(f, thr)`.  No element `≤ thr` gives the shrunk
scalar `nomask` (False); otherwise the mask is a boolean array: truthy for a
one-element array, `ValueError` for a longer one. -/
def maskTruth (f : List ℝ) (thr : ℝ) : Except Unit Bool :=
  if ∀ x ∈ f, thr < x then .ok false
  else if f.length = 1 then .ok true
  else .error ()

/-- `TL._omega`: angular frequency `2 π f`. -/
def omega (f : ℝ) : ℝ := 2 * Real.pi * f

/-- `TL._k0`. -/
def k0 (st : TL) : ℝ := st.w / (st.w + 2 * st.s)

/-- `TL._g` (kinetic-inductance geometry factor). -/
def g (st : TL) : ℝ :=
  (1 / (2 * k0 st ^ 2 * ellipk (k0 st) ^ 2)) *
    (-Real.log (st.t / (4 * st.w)) -
      (st.w / (st.w + 2 * st.s)) * Real.log (st.t / (4 * (st.w + 2 * st.s))) +
      ((2 * (st.w + st.s)) / (st.w + 2 * st.s)) * Real.log (st.s / (st.w + st.s)))

/-- `TL.L_k`: kinetic inductance; performs no state change. -/
def L_k (st : TL) : TL × ℝ :=
  (st, mu_0 * st.lambda_0 ^ 2 * g st / (st.t * st.w))

/-- `TL._k1`. -/
def k1 (st : TL) : ℝ :=
  k0 st * Real.sqrt ((1 - ((st.w + 2 * st.s) / (st.w + 2 * st.s + 2 * st.w_g)) ^ 2) /
    (1 - (st.w / (st.w + 2 * st.s + 2 * st.w_g)) ^ 2))

/-- `TL._k2`. -/
def k2 (st : TL) : ℝ :=
  k0 st * Real.sqrt ((1 - ((st.w + 2 * st.s) / (4 * st.w + 2 * st.s)) ^ 2) /
    (1 - (st.w / (4 * st.w + 2 * st.s)) ^ 2))

/-- `TL._pc0`. -/
def pc0 (st : TL) : ℝ :=
  st.b / (2 * st.a * ellipk (Real.sqrt (1 - k0 st ^ 2)) ^ 2)

/-- `TL._pc1`. -/
def pc1 (st : TL) : ℝ :=
  1 + Real.log ((8 * Real.pi * st.a) / (st.a + st.b)) +
    (st.a * Real.log (st.b / st.a)) / (st.a + st.b)

/-- `TL._pc2`. -/
def pc2 (st : TL) : ℝ :=
  pc1 st - (2 * st.a * ellipk (Real.sqrt (1 - k0 st ^ 2)) ^ 2) / st.b

/-- `TL._pc3`. -/
def pc3 (st : TL) : ℝ :=
  (2 * st.b ^ 2 * ellipe (Real.sqrt (1 - k0 st ^ 2))) /
    (st.a * (st.b + st.a) * ellipk (Real.sqrt (1 - k0 st ^ 2)))

/-- `TL._pc4`. -/
def pc4 (st : TL) : ℝ :=
  ((st.b - st.a) / (st.b + st.a)) *
    (Real.log ((8 * Real.pi * st.a) / (st.a + st.b)) + st.a / st.b)

/-- `TL._pc5`. -/
def pc5 (st : TL) : ℝ :=
  ((st.b - st.a) / (st.b + st.a)) * Real.log 3

/-- `TL._pc6`. -/
def pc6 (st : TL) : ℝ :=
  ((st.b - st.a) / (st.b + st.a)) *
    Real.log ((24 * Real.pi * st.b * (st.a + st.b)) / ((st.b - st.a) ^ 2)) -
    (st.b * Real.log (st.b / st.a)) / (st.b + st.a)

/-- `TL._g_L`. -/
def g_L (st : TL) (x : ℝ) : ℝ :=
  (st.t ^ 2 / 12 - x ^ 2 / 2) * Real.log (1 + (x / st.t) ^ 2) +
    (x ^ 4 / (12 * st.t ^ 2)) * Real.log (1 + (st.t / x) ^ 2) -
    ((2 * x * st.t) / 3) *
      (Real.arctan (x / st.t) + (x / st.t) ^ 2 * Real.arctan (st.t / x))

/-- `TL._L_DC`. -/
def L_DC (st : TL) (w_1 w_2 : ℝ) : ℝ :=
  (mu_0 / (8 * Real.pi)) *
    ((4 * g_L st w_1) / w_1 ^ 2 +
      (1 / w_2 ^ 2) *
        (g_L st (w_1 + 2 * st.s) + g_L st (w_1 + 2 * w_2 + 2 * st.s) +
          2 * g_L st w_2 - 2 * g_L st (w_1 + w_2 + 2 * st.s)) -
      (4 / (w_1 * w_2)) *
        (g_L st (w_1 + w_2 + st.s) - g_L st (w_1 + st.s) + g_L st st.s -
          g_L st (w_2 + st.s)))

/-- `TL._F_lc`. -/
def F_lc (st : TL) : ℝ :=
  if st.t_H ≤ st.s / 2 then
    (pc0 st / st.s) *
      ((Real.pi * st.b + st.b * Real.log ((8 * Real.pi * st.a) / (st.a + st.b)) -
          (st.b - st.a) * Real.log ((st.b - st.a) / (st.b + st.a)) -
          st.b * Real.log ((2 * st.t_H) / st.s)) / (st.a + st.b) +
        st.t_H *
          (pc1 st * pc3 st - pc2 st - st.b * pc4 st / st.a + pc5 st +
            (pc2 st - pc3 st + st.b / st.a - 1 - pc5 st) *
              Real.log ((2 * st.t_H) / st.s)) / st.s +
        (st.t_H / st.s) ^ 2 *
          (pc3 st * (1 - 3 * pc1 st / 2) + 3 * pc1 st / 2 - 2 * pc2 st + 1 +
            (3 * st.b * pc4 st) / (2 * st.a) -
            (st.b * (st.b - st.a)) / (st.a * (st.b + st.a)) +
            (2 * pc2 st + pc1 st * (pc3 st - 1) - st.b * pc4 st / st.a) *
              Real.log ((2 * st.t_H) / st.s)))
  else
    1 / (2 * st.s) + st.t_H / st.s ^ 2 +
      (pc0 st / st.s) *
        ((Real.pi * st.b) / (st.a + st.b) + pc6 st / 2 +
          (1 / 8) *
            (-pc1 st + pc3 st * (pc1 st + 2) - st.b * pc4 st / st.a -
              (2 * (st.a ^ 2 + st.b ^ 2)) / (st.a * (st.a + st.b))))

/-- `TL._F_lg`. -/
def F_lg (st : TL) : ℝ :=
  if st.t_H ≤ st.s / 2 then
    (pc0 st / st.s) *
      ((Real.pi * st.a + st.a * Real.log ((8 * Real.pi * st.b) / (st.b - st.a)) -
          st.b * Real.log ((st.b - st.a) / (st.b + st.a)) -
          st.a * Real.log ((2 * st.t_H) / st.s)) / (st.a + st.b) +
        st.t_H *
          ((st.a * pc1 st * pc3 st) / st.b + (1 - st.a / st.b) * pc1 st - pc2 st -
            pc4 st - pc5 st +
            (pc2 st - st.a * pc3 st / st.b + st.a / st.b - 1 + pc5 st) *
              Real.log ((2 * st.t_H) / st.s)) / st.s +
        (st.t_H / st.s) ^ 2 *
          (((st.a * pc3 st) / st.b) * (1 - 3 * pc1 st / 2) +
            (3 * st.a * pc1 st) / (2 * st.b) - 2 * pc2 st + 2 - st.a / st.b +
            3 * pc4 st / 2 - (st.b - st.a) / (st.b + st.a) +
            (2 * pc2 st + ((st.a * pc1 st) / st.b) * (pc3 st - 1) - pc4 st) *
              Real.log ((2 * st.t_H) / st.s)))
  else
    1 / (2 * st.s) + st.t_H / st.s ^ 2 +
      (pc0 st / st.s) *
        ((Real.pi * st.a) / (st.a + st.b) + pc6 st / 2 +
          (1 / 8) *
            (-(st.a * pc1 st) / st.b + ((st.a * pc3 st) / st.b) * (pc1 st + 2) -
              pc4 st - (2 * (st.a ^ 2 + st.b ^ 2)) / (st.b * (st.a + st.b))))

/-- `TL._F_up`. -/
def F_up (st : TL) (t : ℝ) : ℝ :=
  if t ≤ st.s / 2 then
    ellipk (k1 st) / ellipk (Real.sqrt (1 - k1 st ^ 2)) +
      pc0 st *
        ((t / st.s) * (pc1 st - Real.log ((2 * t) / st.s)) +
          (t / st.s) * (t / st.s) *
            (1 - (3 * pc2 st) / 2 + pc2 st * Real.log ((2 * t) / st.s)))
  else
    ellipk (k1 st) / ellipk (Real.sqrt (1 - k1 st ^ 2)) +
      (pc0 st * (pc2 st + 2)) / 8 + t / st.s

/-- `TL._F_low`. -/
def F_low (st : TL) : ℝ :=
  ellipk (k1 st) / ellipk (Real.sqrt (1 - k1 st ^ 2))

/-- `TL._F1`. -/
def F1 (st : TL) : ℝ :=
  F_up st (st.t / 2) + ellipk (k2 st) / ellipk (Real.sqrt (1 - k2 st ^ 2)) -
    ellipk (k1 st) / ellipk (Real.sqrt (1 - k1 st ^ 2))

/-- `TL._omega_L0`. -/
def omega_L0 (st : TL) : ℝ := 4 / (mu_0 * st.kappa * st.t * st.w_g)

/-- `TL._omega_L1`. -/
def omega_L1 (st : TL) : ℝ := 4 / (mu_0 * st.kappa * st.t * st.w)

/-- `TL._omega_L2`. -/
def omega_L2 (st : TL) : ℝ := 18 / (mu_0 * st.kappa * st.t ^ 2)

/-- `TL._L_1`. -/
def L_1 (st : TL) : ℝ :=
  L_DC st st.w ((3 * st.w) / 2) - mu_0 / (4 * F1 st)

/-- `TL._L_2`. -/
def L_2 (st : TL) : ℝ :=
  Real.sqrt (mu_0 / (2 * omega_L2 st * st.kappa)) *
    ((F_lc st + F_lg st) / (4 * F_up st (st.t / 2) ^ 2))

/-- `TL._L_inf`. -/
def L_inf (st : TL) : ℝ := mu_0 / (4 * F_up st (st.t / 2))

/-- `TL._nu_1`. -/
def nu_1 (st : TL) : ℝ :=
  Real.log ((L_DC st st.w st.w_g - L_inf st) / L_1 st) /
    Real.log (omega_L0 st / omega_L1 st)

/-- `TL._nu_2`. -/
def nu_2 (st : TL) : ℝ :=
  Real.log (L_1 st / L_2 st) / Real.log (omega_L1 st / omega_L2 st)

/-- `TL._eta_1`. -/
def eta_1 (st : TL) : ℝ :=
  (st.w / st.w_g) ^ 4 * (nu_1 st / (4 - nu_1 st))

/-- `TL._eta_2`. -/
def eta_2 (st : TL) : ℝ :=
  (st.w / st.w_g) ^ 2 * (nu_1 st / (4 - nu_1 st))

/-- `TL._eta_3`. -/
def eta_3 (st : TL) : ℝ :=
  ((2 * st.t) / (9 * st.w)) ^ 3 * ((nu_2 st - 1 / 2) / (nu_2 st + 5 / 2))

/-- `TL._eta_4`. -/
def eta_4 (st : TL) : ℝ :=
  ((2 * st.t) / (9 * st.w)) * ((nu_2 st + 1 / 2) / (nu_2 st + 5 / 2))

/-- `TL._a_3L`. -/
def a_3L (st : TL) : ℝ :=
  ((nu_2 st - nu_1 st) * (1 + eta_1 st) * (1 - eta_4 st) + 4 * eta_2 st +
      eta_4 st * (1 - 3 * eta_1 st)) /
    ((nu_1 st - nu_2 st) * (1 + eta_1 st) * (1 - eta_3 st) + 4 -
      eta_3 st * (1 - 3 * eta_1 st))

/-- `TL._a_2L`. -/
def a_2L (st : TL) : ℝ :=
  (1 / (1 + eta_1 st)) * (a_3L st * (1 - eta_3 st) - eta_2 st - eta_4 st)

/-- `TL._a_4L`. -/
def a_4L (st : TL) : ℝ :=
  -(9 / 2) * (st.w / st.t) * (eta_4 st + a_3L st * eta_3 st)

/-- `TL._a_5L`. -/
def a_5L (st : TL) : ℝ :=
  ((2 * st.t) / (9 * st.w)) ^ 2 * a_3L st + a_4L st

/-- `TL._a_1L`. -/
def a_1L (st : TL) : ℝ :=
  nu_1 st / (4 - nu_1 st) + eta_2 st * a_2L st

/-- `TL._a_0L`. -/
def a_0L (st : TL) : ℝ :=
  (1 - L_inf st / L_DC st st.w st.w_g) *
    (a_1L st + (st.w / st.w_g) ^ 2 * a_2L st)

/-- `TL._omega_c1`. -/
def omega_c1 (st : TL) : ℝ :=
  Real.sqrt 2 * (4 / (mu_0 * st.kappa * st.t * st.w))

/-- `TL._omega_c2`. -/
def omega_c2 (st : TL) : ℝ :=
  (8 / (mu_0 * st.kappa)) * ((st.w + st.t) / (st.w * st.t)) ^ 2

/-- `TL._omega_g1`. -/
def omega_g1 (st : TL) : ℝ := 2 / (mu_0 * st.kappa * st.t * st.w_g)

/-- `TL._omega_g2`. -/
def omega_g2 (st : TL) : ℝ :=
  (2 / (mu_0 * st.kappa)) * ((2 * st.w_g + st.t) / (st.w_g * st.t)) ^ 2

/-- `TL._gamma_c`. -/
def gamma_c (st : TL) : ℝ := (omega_c1 st / omega_c2 st) ^ 2

/-- `TL._gamma_g`. -/
def gamma_g (st : TL) : ℝ := (omega_g1 st / omega_g2 st) ^ 2

/-- `TL._R_c0`. -/
def R_c0 (st : TL) : ℝ := 1 / (st.kappa * st.w * st.t)

/-- `TL._R_c1`. -/
def R_c1 (st : TL) : ℝ :=
  Real.sqrt ((omega_c2 st * mu_0) / (2 * st.kappa)) *
    (F_lc st / (4 * F_up st (st.t / 2) ^ 2))

/-- `TL._R_g0`. -/
def R_g0 (st : TL) : ℝ := 1 / (2 * st.kappa * st.w_g * st.t)

/-- `TL._R_g1`. -/
def R_g1 (st : TL) : ℝ :=
  Real.sqrt ((omega_g2 st * mu_0) / (2 * st.kappa)) *
    (F_lg st / (4 * F_up st (st.t / 2) ^ 2))

/-- `TL._nu_c`. -/
def nu_c (st : TL) : ℝ :=
  Real.log (R_c0 st / R_c1 st) / Real.log (omega_c1 st / omega_c2 st)

/-- `TL._nu_g`. -/
def nu_g (st : TL) : ℝ :=
  Real.log (R_g0 st / R_g1 st) / Real.log (omega_g1 st / omega_g2 st)

/-- `TL._a_4c`. -/
def a_4c (st : TL) : ℝ :=
  (gamma_c st * nu_c st +
      (1 / 4) * (1 / 2 - nu_c st) * (4 - nu_c st * (1 - gamma_c st ^ 2))) /
    (4 - nu_c st -
      (1 / 4) * (1 / 2 - nu_c st) * (4 - nu_c st * (1 - gamma_c st ^ 2)))

/-- `TL._a_3c`. -/
def a_3c (st : TL) : ℝ := (1 / 4) * (1 / 2 - nu_c st) * (1 + a_4c st)

/-- `TL._a_2c`. -/
def a_2c (st : TL) : ℝ := (1 / gamma_c st) * (a_4c st - a_3c st)

/-- `TL._a_1c`. -/
def a_1c (st : TL) : ℝ := a_2c st + gamma_c st * a_3c st

/-- `TL._a_4g`. -/
def a_4g (st : TL) : ℝ :=
  (gamma_g st * nu_g st +
      (1 / 4) * (1 / 2 - nu_g st) * (4 - nu_g st * (1 - gamma_g st ^ 2))) /
    (4 - nu_g st -
      (1 / 4) * (1 / 2 - nu_g st) * (4 - nu_g st * (1 - gamma_g st ^ 2)))

/-- `TL._a_3g`. -/
def a_3g (st : TL) : ℝ := (1 / 4) * (1 / 2 - nu_g st) * (1 + a_4g st)

/-- `TL._a_2g`. -/
def a_2g (st : TL) : ℝ := (1 / gamma_g st) * (a_4g st - a_3g st)

/-- `TL._a_1g`. -/
def a_1g (st : TL) : ℝ := a_2g st + gamma_g st * a_3g st

/-- Body of the first `return` of `TL._Rc`. -/
def Rc_b1 (st : TL) (x : ℝ) : ℝ :=
  R_c0 st * (1 + a_1c st * (omega x / omega_c1 st) ^ 2)

/-- Body of the second `return` of `TL._Rc`. -/
def Rc_b2 (st : TL) (x : ℝ) : ℝ :=
  R_c1 st * (omega x / omega_c2 st) ^ (nu_c st) *
    (1 + a_2c st * (omega_c1 st / omega x) ^ 2 +
      a_3c st * (omega x / omega_c2 st) ^ 2)

/-- Body of the third `return` of `TL._Rc`. -/
def Rc_b3 (st : TL) (x : ℝ) : ℝ :=
  Real.sqrt ((omega x * mu_0) / (2 * st.kappa)) *
    (F_lc st / (4 * F_up st (st.t / 2) ^ 2)) *
    (1 + a_4c st * (omega_c2 st / omega x) ^ 2)

/-- `TL._Rc`: the chain `if first_condition: / elif [~first_condition] and
second_condition: / elif [~second_condition]:`.  The one-element literal lists
`[~...]` are always truthy, so the chain truth-tests `first_condition`, then
`second_condition`, and otherwise takes the third branch; each truth test of a
mask may raise `ValueError` (see `maskTruth`). -/
def Rc (st : TL) (f : List ℝ) : Except Unit (List ℝ) :=
  match maskTruth f (omega_c1 st) with
  | .error e => .error e
  | .ok true => .ok (f.map (Rc_b1 st))
  | .ok false =>
    match maskTruth f (omega_c2 st) with
    | .error e => .error e
    | .ok true => .ok (f.map (Rc_b2 st))
    | .ok false => .ok (f.map (Rc_b3 st))

/-- Body of the first `return` of `TL._Rg`. -/
def Rg_b1 (st : TL) (x : ℝ) : ℝ :=
  R_g0 st * (1 + a_1g st * (omega x / omega_g1 st) ^ 2)

/-- Body of the second `return` of `TL._Rg`. -/
def Rg_b2 (st : TL) (x : ℝ) : ℝ :=
  R_g1 st * (omega x / omega_g2 st) ^ (nu_g st) *
    (1 + a_2g st * (omega_g1 st / omega x) ^ 2 +
      a_3g st * (omega x / omega_g2 st) ^ 2)

/-- Body of the third `return` of `TL._Rg`. -/
def Rg_b3 (st : TL) (x : ℝ) : ℝ :=
  Real.sqrt ((omega x * mu_0) / (2 * st.kappa)) *
    (F_lg st / (4 * F_up st (st.t / 2) ^ 2)) *
    (1 + a_4g st * (omega_g2 st / omega x) ^ 2)

/-- `TL._Rg`: same conditional structure as `TL._Rc`. -/
def Rg (st : TL) (f : List ℝ) : Except Unit (List ℝ) :=
  match maskTruth f (omega_g1 st) with
  | .error e => .error e
  | .ok true => .ok (f.map (Rg_b1 st))
  | .ok false =>
    match maskTruth f (omega_g2 st) with
    | .error e => .error e
    | .ok true => .ok (f.map (Rg_b2 st))
    | .ok false => .ok (f.map (Rg_b3 st))

/-- Body of the first `return` of `TL.L_l`. -/
def L_l_b1 (st : TL) (x : ℝ) : ℝ :=
  L_DC st st.w st.w_g * (1 + a_0L st * (omega x / omega_L0 st) ^ 2)

/-- Body of the second `return` of `TL.L_l`. -/
def L_l_b2 (st : TL) (x : ℝ) : ℝ :=
  L_inf st + L_1 st * (omega x / omega_L1 st) ^ (nu_1 st) *
    (1 + a_1L st * (omega_L0 st / omega x) ^ 2 +
      a_2L st * (omega x / omega_L1 st) ^ 2)

/-- Body of the third `return` of `TL.L_l`. -/
def L_l_b3 (st : TL) (x : ℝ) : ℝ :=
  L_inf st + L_2 st * (omega x / omega_L2 st) ^ (nu_2 st) *
    (1 + a_3L st * (omega_L1 st / omega x) ^ 2 +
      a_4L st * (omega x / omega_L2 st) ^ 2)

/-- Body of the fourth `return` of `TL.L_l`. -/
def L_l_b4 (st : TL) (x : ℝ) : ℝ :=
  L_inf st + Real.sqrt (mu_0 / (2 * omega x * st.kappa)) *
    ((F_lc st + F_lg st) / (4 * F_up st (st.t / 2) ^ 2)) *
    (1 + a_5L st * (omega_L2 st / omega x))

/-- The dispatch of `TL.L_l` after `_defined_short_parameter` and
`_variable_check`: the chain `if first_condition: / elif ... and
second_condition: / elif ... and third_condition: / elif [~second_condition]:`,
whose guards reduce to truth-testing the three masks in turn (the literal
one-element lists are always truthy, and the final guard is always truthy). -/
def L_l_val (st : TL) (f : List ℝ) : Except Unit (List ℝ) :=
  match maskTruth f (omega_L0 st) with
  | .error e => .error e
  | .ok true => .ok (f.map (L_l_b1 st))
  | .ok false =>
    match maskTruth f (omega_L1 st) with
    | .error e => .error e
    | .ok true => .ok (f.map (L_l_b2 st))
    | .ok false =>
      match maskTruth f (omega_L2 st) with
      | .error e => .error e
      | .ok true => .ok (f.map (L_l_b3 st))
      | .ok false => .ok (f.map (L_l_b4 st))

/-- The regime index (1–4) selected by the conditional chain of `TL.L_l`,
i.e. which of the four `return` statements is reached for a checked input. -/
def L_l_regime (st : TL) (f : List ℝ) : Except Unit ℕ :=
  match maskTruth f (omega_L0 st) with
  | .error e => .error e
  | .ok true => .ok 1
  | .ok false =>
    match maskTruth f (omega_L1 st) with
    | .error e => .error e
    | .ok true => .ok 2
    | .ok false =>
      match maskTruth f (omega_L2 st) with
      | .error e => .error e
      | .ok true => .ok 3
      | .ok false => .ok 4

/-- The regime index (1–3) selected by the conditional chain of `TL._Rc`. -/
def Rc_regime (st : TL) (f : List ℝ) : Except Unit ℕ :=
  match maskTruth f (omega_c1 st) with
  | .error e => .error e
  | .ok true => .ok 1
  | .ok false =>
    match maskTruth f (omega_c2 st) with
    | .error e => .error e
    | .ok true => .ok 2
    | .ok false => .ok 3

/-- The regime index (1–3) selected by the conditional chain of `TL._Rg`. -/
def Rg_regime (st : TL) (f : List ℝ) : Except Unit ℕ :=
  match maskTruth f (omega_g1 st) with
  | .error e => .error e
  | .ok true => .ok 1
  | .ok false =>
    match maskTruth f (omega_g2 st) with
    | .error e => .error e
    | .ok true => .ok 2
    | .ok false => .ok 3

/-- `TL.L_l`: refreshes the derived geometry, normalizes the argument, and
dispatches on the frequency regime. -/
def L_l (st : TL) (arg : PyArg ℝ) : TL × Except Unit (List ℝ) :=
  (defined_short_parameter st,
    L_l_val (defined_short_parameter st) (variable_check arg))

/-- `TL.R_l`: `self._Rc(f) + self._Rg(f)` (elementwise), `_Rc` evaluated
first. -/
def R_l (st : TL) (arg : PyArg ℝ) : TL × Except Unit (List ℝ) :=
  (defined_short_parameter st,
    do
      let rc ← Rc (defined_short_parameter st) (variable_check arg)
      let rg ← Rg (defined_short_parameter st) (variable_check arg)
      pure (List.zipWith (· + ·) rc rg))

/-- `TL.C_l`: the geometry-only capacitance, replicated `len(f)` times. -/
def C_l (st : TL) (arg : PyArg ℝ) : TL × Except Unit (List ℝ) :=
  (defined_short_parameter st,
    .ok (List.replicate (variable_check arg).length
      (2 * epsilon_0 *
        (F_up (defined_short_parameter st) (defined_short_parameter st).t +
          (defined_short_parameter st).epsilon_r *
            F_low (defined_short_parameter st)))))

/-- `TL.G_l`: `2 * omega(f) * epsilon_0 * epsilon_r * tan_delta * F_low()`
elementwise. -/
def G_l (st : TL) (arg : PyArg ℝ) : TL × Except Unit (List ℝ) :=
  (defined_short_parameter st,
    .ok ((variable_check arg).map fun x =>
      2 * omega x * epsilon_0 * (defined_short_parameter st).epsilon_r *
        (defined_short_parameter st).tan_delta *
        F_low (defined_short_parameter st)))

/-- The coefficient of `f` in `G_l` (see `G_l_linear_strict_mono`):
`G_l` is `G_coef st * f` elementwise. -/
def G_coef (st : TL) : ℝ :=
  4 * Real.pi * epsilon_0 * st.epsilon_r * st.tan_delta *
    F_low (defined_short_parameter st)

/-- `np.sqrt` on a complex value: the principal square root. -/
def npsqrt (z : ℂ) : ℂ := z ^ ((1 : ℂ) / 2)

/-- Elementwise combination of five equal-length arrays (numpy broadcast of a
five-operand expression). -/
def map5 {α β γ δ ε ζ : Type} (g : α → β → γ → δ → ε → ζ) :
    List α → List β → List γ → List δ → List ε → List ζ
  | x :: xs, y :: ys, z :: zs, u :: us, v :: vs =>
    g x y z u v :: map5 g xs ys zs us vs
  | _, _, _, _, _ => []

/-- `TL.Z_0`: `|sqrt((R_l + j omega L_l)/(G_l + j omega C_l))|`, computed as
`np.sqrt(temp.real**2 + temp.imag**2)`. -/
def Z_0 (st : TL) (arg : PyArg ℝ) : TL × Except Unit (List ℝ) :=
  (defined_short_parameter st,
    do
      let rl ← (R_l st (PyArg.ndarray (variable_check arg))).2
      let ll ← (L_l st (PyArg.ndarray (variable_check arg))).2
      let gl ← (G_l st (PyArg.ndarray (variable_check arg))).2
      let cl ← (C_l st (PyArg.ndarray (variable_check arg))).2
      pure (map5 (fun x r l gv cv =>
          let temp := npsqrt (((r : ℂ) + Complex.I * (omega x : ℂ) * (l : ℂ)) /
            ((gv : ℂ) + Complex.I * (omega x : ℂ) * (cv : ℂ)))
          Real.sqrt (temp.re ^ 2 + temp.im ^ 2))
        (variable_check arg) rl ll gl cl))

/-- `TL.gamma`: `sqrt((R_l + j omega L_l)*(G_l + j omega C_l))`, complex. -/
def gamma (st : TL) (arg : PyArg ℝ) : TL × Except Unit (List ℂ) :=
  (defined_short_parameter st,
    do
      let rl ← (R_l st (PyArg.ndarray (variable_check arg))).2
      let ll ← (L_l st (PyArg.ndarray (variable_check arg))).2
      let gl ← (G_l st (PyArg.ndarray (variable_check arg))).2
      let cl ← (C_l st (PyArg.ndarray (variable_check arg))).2
      pure (map5 (fun x r l gv cv =>
          npsqrt ((((r : ℂ) + Complex.I * (omega x : ℂ) * (l : ℂ)) *
            ((gv : ℂ) + Complex.I * (omega x : ℂ) * (cv : ℂ)))))
        (variable_check arg) rl ll gl cl))

/-- `TL.alpha`: real part of `gamma`; its only state effect is `gamma`'s. -/
def alpha (st : TL) (arg : PyArg ℝ) : TL × Except Unit (List ℝ) :=
  ((gamma st arg).1, (gamma st arg).2.map (List.map Complex.re))

/-- `TL.beta`: imaginary part of `gamma`. -/
def beta (st : TL) (arg : PyArg ℝ) : TL × Except Unit (List ℝ) :=
  ((gamma st arg).1, (gamma st arg).2.map (List.map Complex.im))

/-- `TL.velocity`: `1/sqrt(C_l * L_l)/c`. -/
def velocity (st : TL) (arg : PyArg ℝ) : TL × Except Unit (List ℝ) :=
  (defined_short_parameter st,
    do
      let cl ← (C_l st (PyArg.ndarray (variable_check arg))).2
      let ll ← (L_l st (PyArg.ndarray (variable_check arg))).2
      pure (List.zipWith (fun cv lv => 1 / Real.sqrt (cv * lv) / c_light) cl ll))

/-- `TL.L_eq_lambda4`: `8 l L_l / pi^2`. -/
def L_eq_lambda4 (st : TL) (arg : PyArg ℝ) (l : ℝ) :
    TL × Except Unit (List ℝ) :=
  ((L_l st arg).1,
    (L_l st arg).2.map (List.map fun x => 8 * l * x / Real.pi ^ 2))

/-- `TL.C_eq_lambda4`: `l C_l / 2`. -/
def C_eq_lambda4 (st : TL) (arg : PyArg ℝ) (l : ℝ) :
    TL × Except Unit (List ℝ) :=
  ((C_l st arg).1, (C_l st arg).2.map (List.map fun x => l * x / 2))

/-- `TL.R_eq_lambda4`: `Z_0 / alpha / l`. -/
def R_eq_lambda4 (st : TL) (arg : PyArg ℝ) (l : ℝ) :
    TL × Except Unit (List ℝ) :=
  ((alpha st arg).1,
    do
      let zs ← (Z_0 st arg).2
      let als ← (alpha st arg).2
      pure (List.zipWith (fun z av => z / av / l) zs als))

/-- `TL.Q_lambda4`: `pi / (4 alpha l)`. -/
def Q_lambda4 (st : TL) (arg : PyArg ℝ) (l : ℝ) :
    TL × Except Unit (List ℝ) :=
  ((alpha st arg).1,
    (alpha st arg).2.map (List.map fun av => Real.pi / (4 * av * l)))

/-- `TL.resonance_frequency_lambda4`: evaluates the lumped equivalents at the
fixed reference frequency 9 GHz. -/
def resonance_frequency_lambda4 (st : TL) (l : ℝ) :
    TL × Except Unit (List ℝ) :=
  ((C_eq_lambda4 st (PyArg.single 9e9) l).1,
    do
      let le ← (L_eq_lambda4 st (PyArg.single 9e9) l).2
      let ce ← (C_eq_lambda4 st (PyArg.single 9e9) l).2
      pure (List.zipWith (fun x y => 1 / (2 * Real.pi * Real.sqrt (x * y))) le ce))

/-- Equality of all base (non-derived) attributes of two states. -/
def baseEq (s1 s2 : TL) : Prop :=
  s1.epsilon_r = s2.epsilon_r ∧ s1.tan_delta = s2.tan_delta ∧
    s1.kappa = s2.kappa ∧ s1.w = s2.w ∧ s1.s = s2.s ∧ s1.t = s2.t ∧
    s1.w_g = s2.w_g ∧ s1.lambda_0 = s2.lambda_0

/-- The derived attributes agree with the current base geometry. -/
def derivedConsistent (s1 : TL) : Prop :=
  s1.a = s1.w / 2 ∧ s1.b = s1.w / 2 + s1.s ∧ s1.t_H = s1.t / 2

/-- The documented default geometry of `TL.__init__`. -/
def defaultTL : TL :=
  TL.init 11.68 7e-4 3.53e50 19e-6 11.5e-6 100e-9 200e-6

/-- A geometry chosen so that the inductance regime bounds are the rational
numbers `omega_L0 = 1/2`, `omega_L1 = 1`, `omega_L2 = 9/2`. -/
def stEx : TL := TL.init 1 1 (4 / mu_0) 1 1 1 2

/-- A geometry with every base attribute positive but `w = w_g`. -/
def stOnes : TL := TL.init 1 1 1 1 1 1 1

/-- A state whose derived attribute `_a` is stale (inconsistent with `w`). -/
def stStale : TL := { stOnes with a := 5 }

end

section

open Real

theorem mu_0_pos : 0 < mu_0 := by
  unfold mu_0
  positivity

theorem mu_0_ne : mu_0 ≠ 0 := mu_0_pos.ne'

theorem maskTruth_ok_false {f : List ℝ} {thr : ℝ} (h : ∀ x ∈ f, thr < x) :
    maskTruth f thr = .ok false := by
  rw [maskTruth, if_pos h]

theorem maskTruth_ok_true {x thr : ℝ} (h : x ≤ thr) :
    maskTruth [x] thr = .ok true := by
  have hne : ¬ ∀ y ∈ [x], thr < y := by
    intro hall
    exact absurd (hall x (by simp)) (not_lt.mpr h)
  rw [maskTruth, if_neg hne]
  simp

theorem maskTruth_error (f : List ℝ) (thr x : ℝ) (hx : x ∈ f) (hle : x ≤ thr)
    (hlen : f.length ≠ 1) : maskTruth f thr = .error () := by
  have hne : ¬ ∀ y ∈ f, thr < y := fun hall => absurd (hall x hx) (not_lt.mpr hle)
  rw [maskTruth, if_neg hne, if_neg hlen]

theorem maskTruth_single (x thr : ℝ) :
    maskTruth [x] thr = .ok (if x ≤ thr then true else false) := by
  by_cases h : x ≤ thr
  · rw [maskTruth_ok_true h, if_pos h]
  · rw [if_neg h]
    apply maskTruth_ok_false
    intro y hy
    rw [List.mem_singleton] at hy
    rw [hy]
    exact not_le.mp h

theorem L_l_val_eq_regime_map (st : TL) (f : List ℝ) :
    L_l_val st f = (L_l_regime st f).map (fun i =>
      f.map (if i = 1 then L_l_b1 st else if i = 2 then L_l_b2 st
        else if i = 3 then L_l_b3 st else L_l_b4 st)) := by
  unfold L_l_val L_l_regime
  cases h0 : maskTruth f (omega_L0 st) with
  | error e => rfl
  | ok b0 =>
    cases b0 with
    | true => rfl
    | false =>
      cases h1 : maskTruth f (omega_L1 st) with
      | error e => rfl
      | ok b1 =>
        cases b1 with
        | true => rfl
        | false =>
          cases h2 : maskTruth f (omega_L2 st) with
          | error e => rfl
          | ok b2 => cases b2 <;> rfl

theorem Rc_eq_regime_map (st : TL) (f : List ℝ) :
    Rc st f = (Rc_regime st f).map (fun i =>
      f.map (if i = 1 then Rc_b1 st else if i = 2 then Rc_b2 st
        else Rc_b3 st)) := by
  unfold Rc Rc_regime
  cases h0 : maskTruth f (omega_c1 st) with
  | error e => rfl
  | ok b0 =>
    cases b0 with
    | true => rfl
    | false =>
      cases h1 : maskTruth f (omega_c2 st) with
      | error e => rfl
      | ok b1 => cases b1 <;> rfl

theorem Rg_eq_regime_map (st : TL) (f : List ℝ) :
    Rg st f = (Rg_regime st f).map (fun i =>
      f.map (if i = 1 then Rg_b1 st else if i = 2 then Rg_b2 st
        else Rg_b3 st)) := by
  unfold Rg Rg_regime
  cases h0 : maskTruth f (omega_g1 st) with
  | error e => rfl
  | ok b0 =>
    cases b0 with
    | true => rfl
    | false =>
      cases h1 : maskTruth f (omega_g2 st) with
      | error e => rfl
      | ok b1 => cases b1 <;> rfl

theorem stEx_omega_L0 : omega_L0 (defined_short_parameter stEx) = 1 / 2 := by
  have h : mu_0 * (4 / mu_0) = 4 := by
    rw [← mul_div_assoc, mul_comm, mul_div_assoc, div_self mu_0_ne, mul_one]
  show 4 / (mu_0 * (4 / mu_0) * 1 * 2) = 1 / 2
  rw [h]
  norm_num

theorem stEx_omega_L1 : omega_L1 (defined_short_parameter stEx) = 1 := by
  have h : mu_0 * (4 / mu_0) = 4 := by
    rw [← mul_div_assoc, mul_comm, mul_div_assoc, div_self mu_0_ne, mul_one]
  show 4 / (mu_0 * (4 / mu_0) * 1 * 1) = 1
  rw [h]
  norm_num

theorem stEx_omega_L2 : omega_L2 (defined_short_parameter stEx) = 9 / 2 := by
  have h : mu_0 * (4 / mu_0) = 4 := by
    rw [← mul_div_assoc, mul_comm, mul_div_assoc, div_self mu_0_ne, mul_one]
  show 18 / (mu_0 * (4 / mu_0) * 1 ^ 2) = 9 / 2
  rw [h]
  norm_num

/-- C1: with the geometry `stEx` (regime bounds 1/2, 1, 9/2 Hz), the scalar
calls `L_l(0.25)` and `L_l(10)` each succeed (regimes 1 and 4), but the batch
call `L_l([0.25, 10])` raises `ValueError` when the first multi-element mask
is truth-tested, instead of returning the concatenation of the two scalar
results as the claim states. -/
theorem L_l_batch_raises :
    (L_l stEx (PyArg.single 0.25)).2 =
        .ok [L_l_b1 (defined_short_parameter stEx) 0.25] ∧
    (L_l stEx (PyArg.single 10)).2 =
        .ok [L_l_b4 (defined_short_parameter stEx) 10] ∧
    (L_l stEx (PyArg.pylist [0.25, 10])).2 = .error () := by
  refine ⟨?_, ?_, ?_⟩
  · show L_l_val (defined_short_parameter stEx) [0.25] = _
    unfold L_l_val
    rw [maskTruth_ok_true (by rw [stEx_omega_L0]; norm_num)]
    rfl
  · show L_l_val (defined_short_parameter stEx) [10] = _
    unfold L_l_val
    rw [maskTruth_ok_false (by
        intro y hy
        rw [List.mem_singleton] at hy
        rw [hy, stEx_omega_L0]
        norm_num),
      maskTruth_ok_false (by
        intro y hy
        rw [List.mem_singleton] at hy
        rw [hy, stEx_omega_L1]
        norm_num),
      maskTruth_ok_false (by
        intro y hy
        rw [List.mem_singleton] at hy
        rw [hy, stEx_omega_L2]
        norm_num)]
    rfl
  · show L_l_val (defined_short_parameter stEx) [0.25, 10] = _
    unfold L_l_val
    rw [maskTruth_error [0.25, 10] _ 0.25 (by simp)
      (by rw [stEx_omega_L0]; norm_num) (by norm_num)]

/-- C2 (counterexample): with the geometry `stEx`, the frequency `f = 0.4`
satisfies `f ≤ omega_L0` so the source's dispatch reaches the first regime
branch, although the angular frequency `omega(f) = 2 π 0.4` lies strictly
between `omega_L1` and `omega_L2`, so any selection comparing `omega(f)`
against the boundary frequencies would pick the third branch. -/
theorem L_l_regime_uses_f_not_omega :
    L_l_regime (defined_short_parameter stEx) [0.4] = .ok 1 ∧
    omega_L1 (defined_short_parameter stEx) < omega 0.4 ∧
    omega 0.4 ≤ omega_L2 (defined_short_parameter stEx) := by
  refine ⟨?_, ?_, ?_⟩
  · unfold L_l_regime
    rw [maskTruth_ok_true (by rw [stEx_omega_L0]; norm_num)]
  · rw [stEx_omega_L1]
    unfold omega
    have h := Real.pi_gt_three
    nlinarith
  · rw [stEx_omega_L2]
    unfold omega
    have h := Real.pi_lt_d2
    nlinarith

/-- C2 (amended): for a one-element frequency array the regime branch reached
by `L_l` (resp. `_Rc`, `_Rg`) is determined by comparing the plain frequency
`f` itself — not `omega(f) = 2 π f` — against the boundary frequencies, with
`≤` at the boundaries. -/
theorem regime_selection_singleton (st : TL) (x : ℝ) :
    L_l_regime st [x] = .ok (if x ≤ omega_L0 st then 1 else
      if x ≤ omega_L1 st then 2 else if x ≤ omega_L2 st then 3 else 4) ∧
    Rc_regime st [x] = .ok (if x ≤ omega_c1 st then 1 else
      if x ≤ omega_c2 st then 2 else 3) ∧
    Rg_regime st [x] = .ok (if x ≤ omega_g1 st then 1 else
      if x ≤ omega_g2 st then 2 else 3) := by
  refine ⟨?_, ?_, ?_⟩
  · unfold L_l_regime
    simp only [maskTruth_single]
    by_cases h0 : x ≤ omega_L0 st <;> by_cases h1 : x ≤ omega_L1 st <;>
      by_cases h2 : x ≤ omega_L2 st <;> simp [h0, h1, h2]
  · unfold Rc_regime
    simp only [maskTruth_single]
    by_cases h0 : x ≤ omega_c1 st <;> by_cases h1 : x ≤ omega_c2 st <;>
      simp [h0, h1]
  · unfold Rg_regime
    simp only [maskTruth_single]
    by_cases h0 : x ≤ omega_g1 st <;> by_cases h1 : x ≤ omega_g2 st <;>
      simp [h0, h1]

/-- C3: the per-length capacitance returned by `C_l` does not depend on the
value of the frequency argument: any two scalar queries return the same
one-element result, namely the geometry-only expression
`2 ε0 (F_up(t) + ε_r F_low())`. -/
theorem C_l_frequency_independent (st : TL) (f1 f2 : ℝ) :
    (C_l st (PyArg.single f1)).2 = (C_l st (PyArg.single f2)).2 ∧
    (C_l st (PyArg.single f1)).2 = .ok [2 * epsilon_0 *
      (F_up (defined_short_parameter st) st.t +
        st.epsilon_r * F_low (defined_short_parameter st))] :=
  ⟨rfl, rfl⟩

/-- C9 (counterexample): `_variable_check` applied to an unsupported
non-numeric object does not raise a type error; it silently returns a
one-element array wrapping the object. -/
theorem variable_check_wraps_object :
    variable_check (PyArg.single PyObj.obj) = [PyObj.obj] := rfl

/-- C9 (amended): `_variable_check` performs no type validation: every
argument that is not an ndarray or a list — numeric or not — is silently
wrapped into a one-element array. -/
theorem variable_check_no_type_check (x : PyObj) :
    variable_check (PyArg.single x) = [x] ∧
      (variable_check (PyArg.single x)).length = 1 :=
  ⟨rfl, rfl⟩

/-- C10 (amended): every public operation leaves all base attributes
unchanged; every listed operation except `L_k` sets the state to
`defined_short_parameter st` (whose derived attributes are consistent with
the base geometry), while `L_k` performs no state change at all. -/
theorem public_ops_state_effect (st : TL) (arg : PyArg ℝ) (l : ℝ) :
    (L_k st).1 = st ∧
    (L_l st arg).1 = defined_short_parameter st ∧
    (R_l st arg).1 = defined_short_parameter st ∧
    (C_l st arg).1 = defined_short_parameter st ∧
    (G_l st arg).1 = defined_short_parameter st ∧
    (Z_0 st arg).1 = defined_short_parameter st ∧
    (gamma st arg).1 = defined_short_parameter st ∧
    (alpha st arg).1 = defined_short_parameter st ∧
    (beta st arg).1 = defined_short_parameter st ∧
    (velocity st arg).1 = defined_short_parameter st ∧
    (L_eq_lambda4 st arg l).1 = defined_short_parameter st ∧
    (C_eq_lambda4 st arg l).1 = defined_short_parameter st ∧
    (R_eq_lambda4 st arg l).1 = defined_short_parameter st ∧
    (Q_lambda4 st arg l).1 = defined_short_parameter st ∧
    (resonance_frequency_lambda4 st l).1 = defined_short_parameter st ∧
    baseEq (defined_short_parameter st) st ∧
    derivedConsistent (defined_short_parameter st) := by
  refine ⟨rfl, rfl, rfl, rfl, rfl, rfl, rfl, rfl, rfl, rfl, rfl, rfl, rfl,
    rfl, rfl, ?_, ?_⟩
  · exact ⟨rfl, rfl, rfl, rfl, rfl, rfl, rfl, rfl⟩
  · exact ⟨rfl, rfl, rfl⟩

/-- C10 (counterexample): `L_k` does not recompute the derived attributes, so
a stale derived value survives the call and the state after `L_k` is not
consistent with the base geometry. -/
theorem L_k_leaves_stale_derived : ¬ derivedConsistent (L_k stStale).1 := by
  intro h
  have h1 : (5 : ℝ) = 1 / 2 := h.1
  norm_num at h1

theorem ellipk_pos (m : ℝ) (h0 : 0 ≤ m) (h1 : m < 1) : 0 < ellipk m := by
  have hden : ∀ θ : ℝ, 0 < 1 - m * Real.sin θ ^ 2 := by
    intro θ
    have hs := Real.sin_sq_le_one θ
    have hm : m * Real.sin θ ^ 2 ≤ m * 1 := mul_le_mul_of_nonneg_left hs h0
    nlinarith
  have hcont : Continuous fun θ : ℝ => 1 / Real.sqrt (1 - m * Real.sin θ ^ 2) := by
    apply Continuous.div continuous_const
    · exact Real.continuous_sqrt.comp
        (continuous_const.sub (continuous_const.mul (Real.continuous_sin.pow 2)))
    · intro θ
      exact (Real.sqrt_pos.mpr (hden θ)).ne'
  unfold ellipk
  apply intervalIntegral.intervalIntegral_pos_of_pos_on
    (hcont.intervalIntegrable 0 (Real.pi / 2))
  · intro θ _
    exact div_pos one_pos (Real.sqrt_pos.mpr (hden θ))
  · positivity

theorem mul_sqrt_div_mem (a N D : ℝ) (ha : 0 < a) (hal : a < 1) (hN : 0 < N)
    (hND : N < D) :
    0 < a * Real.sqrt (N / D) ∧ a * Real.sqrt (N / D) < 1 := by
  have hD : 0 < D := hN.trans hND
  have hrad : 0 < N / D := div_pos hN hD
  have hradl : N / D < 1 := (div_lt_one hD).mpr hND
  have hsq : 0 < Real.sqrt (N / D) := Real.sqrt_pos.mpr hrad
  have hsql : Real.sqrt (N / D) < 1 := by
    have h := Real.sqrt_lt_sqrt hrad.le hradl
    rwa [Real.sqrt_one] at h
  refine ⟨mul_pos ha hsq, ?_⟩
  calc a * Real.sqrt (N / D) < a * 1 := mul_lt_mul_of_pos_left hsql ha
    _ = a := mul_one a
    _ < 1 := hal

theorem k1_bounds (st : TL) (hw : 0 < st.w) (hs : 0 < st.s)
    (hwg : 0 < st.w_g) : 0 < k1 st ∧ k1 st < 1 := by
  have hE : 0 < st.w + 2 * st.s + 2 * st.w_g := by linarith
  have hk0p : 0 < k0 st := div_pos hw (by linarith)
  have hk0l : k0 st < 1 := by
    unfold k0
    rw [div_lt_one (by linarith)]
    linarith
  have hr1p : (0:ℝ) < (st.w + 2 * st.s) / (st.w + 2 * st.s + 2 * st.w_g) :=
    div_pos (by linarith) hE
  have hr1l : (st.w + 2 * st.s) / (st.w + 2 * st.s + 2 * st.w_g) < 1 := by
    rw [div_lt_one hE]
    linarith
  have hr2p : (0:ℝ) ≤ st.w / (st.w + 2 * st.s + 2 * st.w_g) :=
    (div_pos hw hE).le
  have hrlt : st.w / (st.w + 2 * st.s + 2 * st.w_g) <
      (st.w + 2 * st.s) / (st.w + 2 * st.s + 2 * st.w_g) :=
    (div_lt_div_iff_of_pos_right hE).mpr (by linarith)
  have hN : 0 < 1 - ((st.w + 2 * st.s) / (st.w + 2 * st.s + 2 * st.w_g)) ^ 2 := by
    have h := pow_lt_one₀ hr1p.le hr1l (two_ne_zero)
    linarith
  have hND : 1 - ((st.w + 2 * st.s) / (st.w + 2 * st.s + 2 * st.w_g)) ^ 2 <
      1 - (st.w / (st.w + 2 * st.s + 2 * st.w_g)) ^ 2 := by
    have h := pow_lt_pow_left₀ hrlt hr2p (two_ne_zero)
    linarith
  unfold k1
  exact mul_sqrt_div_mem (k0 st) _ _ hk0p hk0l hN hND

theorem F_low_pos (st : TL) (hw : 0 < st.w) (hs : 0 < st.s)
    (hwg : 0 < st.w_g) : 0 < F_low st := by
  obtain ⟨hp, hl⟩ := k1_bounds st hw hs hwg
  have h1 : 0 < ellipk (k1 st) := ellipk_pos (k1 st) hp.le hl
  have h2 : 0 < ellipk (Real.sqrt (1 - k1 st ^ 2)) := by
    apply ellipk_pos _ (Real.sqrt_nonneg _)
    have h3 : 1 - k1 st ^ 2 < 1 := by nlinarith
    have h4 : (0:ℝ) ≤ 1 - k1 st ^ 2 := by nlinarith
    have h5 := Real.sqrt_lt_sqrt h4 h3
    rwa [Real.sqrt_one] at h5
  exact div_pos h1 h2

/-- C4: for a geometry with positive widths, thickness, loss tangent and
permittivity, `G_l` is linear in the frequency with the positive coefficient
`G_coef = 4 π ε0 ε_r tanδ F_low()` (i.e. proportional to
`omega(f) ε_r tanδ F_low()`); hence it is strictly increasing in `f`. -/
theorem G_l_linear_strict_mono (st : TL) (hw : 0 < st.w) (hs : 0 < st.s)
    (ht : 0 < st.t) (hwg : 0 < st.w_g) (htd : 0 < st.tan_delta)
    (her : 0 < st.epsilon_r) (f1 f2 : ℝ) (h12 : f1 < f2) :
    (G_l st (PyArg.single f1)).2 = .ok [G_coef st * f1] ∧
    (G_l st (PyArg.single f2)).2 = .ok [G_coef st * f2] ∧
    G_coef st * f1 < G_coef st * f2 := by
  have hfl : 0 < F_low (defined_short_parameter st) :=
    F_low_pos (defined_short_parameter st) hw hs hwg
  have hcoef : 0 < G_coef st := by
    unfold G_coef
    have hpi := Real.pi_pos
    have he0 : (0:ℝ) < epsilon_0 := by unfold epsilon_0 mu_0 c_light; positivity
    exact mul_pos (mul_pos (mul_pos (mul_pos
      (mul_pos (by norm_num) hpi) he0) her) htd) hfl
  refine ⟨?_, ?_, mul_lt_mul_of_pos_left h12 hcoef⟩
  · show Except.ok [2 * omega f1 * epsilon_0 * st.epsilon_r * st.tan_delta *
      F_low (defined_short_parameter st)] = Except.ok [G_coef st * f1]
    exact congrArg Except.ok (congrArg (fun y => [y])
      (by unfold G_coef omega; ring))
  · show Except.ok [2 * omega f2 * epsilon_0 * st.epsilon_r * st.tan_delta *
      F_low (defined_short_parameter st)] = Except.ok [G_coef st * f2]
    exact congrArg Except.ok (congrArg (fun y => [y])
      (by unfold G_coef omega; ring))

/-- C4 (witness): the default geometry satisfies the hypotheses, and
`G_l` at 1e8 Hz is strictly below `G_l` at 1e11 Hz. -/
theorem G_l_linear_strict_mono_witness :
    (G_l defaultTL (PyArg.single 1e8)).2 = .ok [G_coef defaultTL * 1e8] ∧
    (G_l defaultTL (PyArg.single 1e11)).2 = .ok [G_coef defaultTL * 1e11] ∧
    G_coef defaultTL * 1e8 < G_coef defaultTL * 1e11 :=
  G_l_linear_strict_mono defaultTL (by norm_num [defaultTL, TL.init])
    (by norm_num [defaultTL, TL.init]) (by norm_num [defaultTL, TL.init])
    (by norm_num [defaultTL, TL.init]) (by norm_num [defaultTL, TL.init])
    (by norm_num [defaultTL, TL.init]) 1e8 1e11 (by norm_num)

/-- C5 (amended): with positive `kappa`, `t`, `w` and the extra geometric
conditions `w < w_g` and `2 t < 9 w` (satisfied by the documented default
geometry), the inductance boundary frequencies are strictly ordered
`omega_L0 < omega_L1 < omega_L2`. -/
theorem omega_L_ordered (st : TL) (hk : 0 < st.kappa) (ht : 0 < st.t)
    (hw : 0 < st.w) (hwg : st.w < st.w_g) (htw : 2 * st.t < 9 * st.w) :
    omega_L0 st < omega_L1 st ∧ omega_L1 st < omega_L2 st := by
  have hMK : 0 < mu_0 * st.kappa := mul_pos mu_0_pos hk
  have hA : 0 < mu_0 * st.kappa * st.t := mul_pos hMK ht
  constructor
  · unfold omega_L0 omega_L1
    exact div_lt_div_of_pos_left (by norm_num) (mul_pos hA hw)
      ((mul_lt_mul_left hA).mpr hwg)
  · unfold omega_L1 omega_L2
    rw [div_lt_div_iff₀ (mul_pos hA hw) (by positivity)]
    have h9 : (0:ℝ) < 9 * st.w - 2 * st.t := by linarith
    nlinarith [mul_pos (mul_pos hMK ht) h9]

/-- C5 (witness): the documented default geometry satisfies the amended
hypotheses, so its boundary frequencies are strictly ordered. -/
theorem omega_L_ordered_witness :
    omega_L0 defaultTL < omega_L1 defaultTL ∧
      omega_L1 defaultTL < omega_L2 defaultTL :=
  omega_L_ordered defaultTL (by norm_num [defaultTL, TL.init])
    (by norm_num [defaultTL, TL.init]) (by norm_num [defaultTL, TL.init])
    (by norm_num [defaultTL, TL.init]) (by norm_num [defaultTL, TL.init])

/-- C5 (counterexample): a geometry with all of `w`, `s`, `t`, `w_g`, `kappa`
positive in which the claimed strict ordering fails: `w = w_g` makes
`omega_L0 = omega_L1`. -/
theorem omega_L_not_ordered_counterexample :
    0 < stOnes.w ∧ 0 < stOnes.s ∧ 0 < stOnes.t ∧ 0 < stOnes.w_g ∧
      0 < stOnes.kappa ∧ ¬ omega_L0 stOnes < omega_L1 stOnes := by
  refine ⟨by norm_num [stOnes, TL.init], by norm_num [stOnes, TL.init],
    by norm_num [stOnes, TL.init], by norm_num [stOnes, TL.init],
    by norm_num [stOnes, TL.init], ?_⟩
  have h : omega_L0 stOnes = omega_L1 stOnes := rfl
  rw [h]
  exact lt_irrefl _

end

end CPW
